import Mathlib

/-!
Shallow embedding of `src/jiwa_relapse_predictor.py` (Jiwa relapse predictor).

Numeric model: snapshot fields and the ten extracted features are rationals
(every arithmetic step of the feature extractor is exact field arithmetic),
and the logistic calibration step maps into the reals via `Real.exp`.
The Python dict passed to `relapse_probability_6_12_months` is modelled as an
association list `List (String × ℚ)`; a `KeyError` on a missing key is
modelled as the `none` result of an `Option`-valued sum.

Source field names `medication_adherence_ratio` and `missed_followup_ratio`
are shortened to `medication_adherence` and `missed_followup` here.
-/

/-- Mirror of the Python dataclass `PatientSnapshot`. -/
structure PatientSnapshot where
  baseline_speech_rate_wpm : ℚ
  current_speech_rate_wpm : ℚ
  baseline_pause_seconds : ℚ
  current_pause_seconds : ℚ
  baseline_emotion_valence : ℚ
  current_emotion_valence : ℚ
  baseline_disorganization : ℚ
  current_disorganization : ℚ
  baseline_sleep_hours : ℚ
  current_sleep_hours : ℚ
  sleep_variability_hours : ℚ
  baseline_activity_steps : ℚ
  current_activity_steps : ℚ
  circadian_shift_hours : ℚ
  medication_adherence : ℚ
  missed_followup : ℚ
  baseline_daily_messages : ℚ
  current_daily_messages : ℚ
deriving DecidableEq

/-- Mirror of `JiwaRelapsePredictor._bounded` with its default bounds `0.0, 1.0`
(applied to the rational feature computations). -/
def bounded (value : ℚ) (low : ℚ := 0) (high : ℚ := 1) : ℚ :=
  max low (min high value)

/-- Mirror of `JiwaRelapsePredictor._bounded` as applied to the real-valued
outcome computations. -/
noncomputable def boundedR (value : ℝ) (low : ℝ := 0) (high : ℝ := 1) : ℝ :=
  max low (min high value)

/-- Mirror of `JiwaRelapsePredictor._relative_change`. -/
def relative_change (current baseline : ℚ) : ℚ :=
  if baseline = 0 then 0 else |current - baseline| / |baseline|

/-- The fixed-shape record holding the ten features produced by
`extract_10_features` (the Python dict has exactly these ten keys). -/
structure FeatureVector where
  speech_rate_shift : ℚ
  pause_change : ℚ
  emotion_valence_drop : ℚ
  language_disorganization_rise : ℚ
  sleep_deviation : ℚ
  sleep_irregularity : ℚ
  activity_shift : ℚ
  circadian_disruption : ℚ
  medication_nonadherence : ℚ
  digital_withdrawal : ℚ
deriving DecidableEq

/-- Mirror of `JiwaRelapsePredictor.extract_10_features`. -/
def extract_10_features (p : PatientSnapshot) : FeatureVector where
  speech_rate_shift :=
    bounded (relative_change p.current_speech_rate_wpm p.baseline_speech_rate_wpm)
  pause_change :=
    bounded (relative_change p.current_pause_seconds p.baseline_pause_seconds)
  emotion_valence_drop :=
    bounded (max 0 (p.baseline_emotion_valence - p.current_emotion_valence) / 2)
  language_disorganization_rise :=
    bounded (max 0 (p.current_disorganization - p.baseline_disorganization))
  sleep_deviation :=
    bounded (|p.current_sleep_hours - p.baseline_sleep_hours| / 4)
  sleep_irregularity :=
    bounded (p.sleep_variability_hours / 3)
  activity_shift :=
    bounded (relative_change p.current_activity_steps p.baseline_activity_steps)
  circadian_disruption :=
    bounded (|p.circadian_shift_hours| / 4)
  medication_nonadherence :=
    bounded (1 - p.medication_adherence)
  digital_withdrawal :=
    bounded (max 0 (p.baseline_daily_messages - p.current_daily_messages)
      / max 1 p.baseline_daily_messages)

/-- The dict returned by `extract_10_features`, as an association list in the
insertion order of the source. -/
def FeatureVector.toPairs (fv : FeatureVector) : List (String × ℚ) :=
  [("speech_rate_shift", fv.speech_rate_shift),
   ("pause_change", fv.pause_change),
   ("emotion_valence_drop", fv.emotion_valence_drop),
   ("language_disorganization_rise", fv.language_disorganization_rise),
   ("sleep_deviation", fv.sleep_deviation),
   ("sleep_irregularity", fv.sleep_irregularity),
   ("activity_shift", fv.activity_shift),
   ("circadian_disruption", fv.circadian_disruption),
   ("medication_nonadherence", fv.medication_nonadherence),
   ("digital_withdrawal", fv.digital_withdrawal)]

/-- Mirror of `JiwaRelapsePredictor.weights` (`self.weights` in `__init__`),
in dict insertion order. -/
def weights : List (String × ℚ) :=
  [("speech_rate_shift", 1.1),
   ("pause_change", 0.6),
   ("emotion_valence_drop", 1.2),
   ("language_disorganization_rise", 1.4),
   ("sleep_deviation", 1.1),
   ("sleep_irregularity", 0.9),
   ("activity_shift", 0.7),
   ("circadian_disruption", 1.0),
   ("medication_nonadherence", 1.5),
   ("digital_withdrawal", 0.8)]

/-- The keys of the weight table. -/
def featureKeys : List String := weights.map Prod.fst

/-- Python dict lookup `d[k]`, `none` modelling a raised `KeyError`. -/
def lookupQ (k : String) : List (String × ℚ) → Option ℚ
  | [] => none
  | (a, v) :: rest => if k = a then some v else lookupQ k rest

/-- The sum `sum(features[k] * self.weights[k] for k in self.weights)`:
iterates over the given weight entries, fails (`none`) as soon as a weight key
is missing from `features`. -/
def sumTerms (features : List (String × ℚ)) : List (String × ℚ) → Option ℚ
  | [] => some 0
  | (k, w) :: rest =>
    match lookupQ k features, sumTerms features rest with
    | some v, some s => some (v * w + s)
    | _, _ => none

/-- The weighted score of a full `FeatureVector`, written out term by term
(it agrees with `sumTerms` on `FeatureVector.toPairs`; see
`sumTerms_toPairs`). -/
def score (fv : FeatureVector) : ℚ :=
  fv.speech_rate_shift * 1.1 + (fv.pause_change * 0.6 +
    (fv.emotion_valence_drop * 1.2 + (fv.language_disorganization_rise * 1.4 +
      (fv.sleep_deviation * 1.1 + (fv.sleep_irregularity * 0.9 +
        (fv.activity_shift * 0.7 + (fv.circadian_disruption * 1.0 +
          (fv.medication_nonadherence * 1.5 + (fv.digital_withdrawal * 0.8 + 0)))))))))

/-- The logistic transform `1 / (1 + exp(-x))`. -/
noncomputable def logistic (x : ℝ) : ℝ :=
  1 / (1 + Real.exp (-x))

/-- Mirror of `JiwaRelapsePredictor.relapse_probability_6_12_months`:
`score = sum(features[k] * self.weights[k] for k in self.weights)`,
`calibrated = score - 3.5`, `1 / (1 + exp(-calibrated))`. -/
noncomputable def relapse_probability_6_12_months
    (features : List (String × ℚ)) : Option ℝ :=
  (sumTerms features weights).map (fun s => logistic ((s : ℝ) - 3.5))

/-- The relapse probability of a full ten-feature vector. -/
noncomputable def relapseRiskFV (fv : FeatureVector) : ℝ :=
  logistic ((score fv : ℝ) - 3.5)

theorem sumTerms_toPairs (fv : FeatureVector) :
    sumTerms fv.toPairs weights = some (score fv) := rfl

theorem relapse_probability_toPairs (fv : FeatureVector) :
    relapse_probability_6_12_months fv.toPairs = some (relapseRiskFV fv) := rfl

/-- The dict returned by `estimate_outcomes`, as a fixed-shape record. -/
structure OutcomeSet where
  relapse_risk_6_12m : ℝ
  readmission_risk : ℝ
  early_intervention_window_days : ℝ
  predicted_medication_adherence_3m : ℝ
  estimated_false_alarm_rate : ℝ
  features : FeatureVector

/-- Mirror of `JiwaRelapsePredictor.estimate_outcomes`.  The call
`self.relapse_probability_6_12_months(features)` always succeeds here because
`features` carries exactly the ten weight keys
(`relapse_probability_toPairs`), so its value is `relapseRiskFV features`. -/
noncomputable def estimate_outcomes (p : PatientSnapshot) : OutcomeSet :=
  let features := extract_10_features p
  let relapse_risk := relapseRiskFV features
  { relapse_risk_6_12m := relapse_risk
    readmission_risk := boundedR (relapse_risk * 0.72 + 0.08)
    early_intervention_window_days := max 3 (60 * (1 - relapse_risk))
    predicted_medication_adherence_3m :=
      boundedR ((p.medication_adherence : ℝ) - 0.25 * relapse_risk
        - 0.15 * (p.missed_followup : ℝ))
    estimated_false_alarm_rate := if relapse_risk > 0.55 then 0.18 else 0.10
    features := features }

/-- The dict returned by `compare_with_routine_followup`, as a fixed-shape
record. -/
structure ComparisonSet where
  ai_relapse_risk_6_12m : ℝ
  routine_relapse_risk_6_12m : ℝ
  ai_readmission_risk : ℝ
  routine_readmission_risk : ℝ
  ai_early_intervention_window_days : ℝ
  routine_early_intervention_window_days : ℝ
  ai_estimated_false_alarm_rate : ℝ

/-- Mirror of `JiwaRelapsePredictor.compare_with_routine_followup`. -/
noncomputable def compare_with_routine_followup (p : PatientSnapshot) : ComparisonSet :=
  let ai := estimate_outcomes p
  { ai_relapse_risk_6_12m := ai.relapse_risk_6_12m
    routine_relapse_risk_6_12m := boundedR (ai.relapse_risk_6_12m + 0.08)
    ai_readmission_risk := ai.readmission_risk
    routine_readmission_risk := boundedR (ai.readmission_risk + 0.12)
    ai_early_intervention_window_days := ai.early_intervention_window_days
    routine_early_intervention_window_days :=
      max 1 (ai.early_intervention_window_days - 14)
    ai_estimated_false_alarm_rate := ai.estimated_false_alarm_rate }

/-- The concrete snapshot built by `demo()`. -/
def demoPatient : PatientSnapshot where
  baseline_speech_rate_wpm := 120
  current_speech_rate_wpm := 165
  baseline_pause_seconds := 1.2
  current_pause_seconds := 0.5
  baseline_emotion_valence := 0.1
  current_emotion_valence := -0.4
  baseline_disorganization := 0.22
  current_disorganization := 0.55
  baseline_sleep_hours := 7.0
  current_sleep_hours := 4.5
  sleep_variability_hours := 2.1
  baseline_activity_steps := 7000
  current_activity_steps := 3200
  circadian_shift_hours := 2.8
  medication_adherence := 0.78
  missed_followup := 0.30
  baseline_daily_messages := 35
  current_daily_messages := 12

/-- All ten feature values lie in the unit interval. -/
def FeatureVector.inUnit (fv : FeatureVector) : Prop :=
  (0 ≤ fv.speech_rate_shift ∧ fv.speech_rate_shift ≤ 1) ∧
  (0 ≤ fv.pause_change ∧ fv.pause_change ≤ 1) ∧
  (0 ≤ fv.emotion_valence_drop ∧ fv.emotion_valence_drop ≤ 1) ∧
  (0 ≤ fv.language_disorganization_rise ∧ fv.language_disorganization_rise ≤ 1) ∧
  (0 ≤ fv.sleep_deviation ∧ fv.sleep_deviation ≤ 1) ∧
  (0 ≤ fv.sleep_irregularity ∧ fv.sleep_irregularity ≤ 1) ∧
  (0 ≤ fv.activity_shift ∧ fv.activity_shift ≤ 1) ∧
  (0 ≤ fv.circadian_disruption ∧ fv.circadian_disruption ≤ 1) ∧
  (0 ≤ fv.medication_nonadherence ∧ fv.medication_nonadherence ≤ 1) ∧
  (0 ≤ fv.digital_withdrawal ∧ fv.digital_withdrawal ≤ 1)

instance (fv : FeatureVector) : Decidable fv.inUnit := by
  unfold FeatureVector.inUnit; infer_instance

lemma bounded_mem_unit (v : ℚ) : 0 ≤ bounded v ∧ bounded v ≤ 1 := by
  unfold bounded
  constructor
  · exact le_max_left 0 _
  · exact max_le zero_le_one (min_le_left 1 v)

lemma boundedR_mem_unit (v : ℝ) : 0 ≤ boundedR v ∧ boundedR v ≤ 1 := by
  unfold boundedR
  constructor
  · exact le_max_left 0 _
  · exact max_le zero_le_one (min_le_left 1 v)

lemma boundedR_eq_self {v : ℝ} (h0 : 0 ≤ v) (h1 : v ≤ 1) : boundedR v = v := by
  unfold boundedR
  rw [min_eq_right h1, max_eq_right h0]

lemma one_add_exp_pos (x : ℝ) : 0 < 1 + Real.exp x := by
  positivity

lemma logistic_pos (x : ℝ) : 0 < logistic x := by
  unfold logistic
  positivity

lemma logistic_lt_one (x : ℝ) : logistic x < 1 := by
  unfold logistic
  rw [div_lt_one (one_add_exp_pos (-x))]
  linarith [Real.exp_pos (-x)]

lemma logistic_mono {a b : ℝ} (h : a ≤ b) : logistic a ≤ logistic b := by
  unfold logistic
  apply one_div_le_one_div_of_le (one_add_exp_pos (-b))
  have := Real.exp_le_exp.mpr (neg_le_neg h)
  linarith

lemma extract_inUnit (p : PatientSnapshot) : (extract_10_features p).inUnit := by
  unfold FeatureVector.inUnit extract_10_features
  refine ⟨?_, ?_, ?_, ?_, ?_, ?_, ?_, ?_, ?_, ?_⟩ <;> exact bounded_mem_unit _

lemma score_bounds {fv : FeatureVector} (h : fv.inUnit) :
    0 ≤ score fv ∧ score fv ≤ 103 / 10 := by
  obtain ⟨⟨a0, a1⟩, ⟨b0, b1⟩, ⟨c0, c1⟩, ⟨d0, d1⟩, ⟨e0, e1⟩,
    ⟨f0, f1⟩, ⟨g0, g1⟩, ⟨h0, h1⟩, ⟨i0, i1⟩, ⟨j0, j1⟩⟩ := h
  unfold score
  constructor <;> nlinarith

lemma relapseRiskFV_mono {a b : FeatureVector} (h : score a ≤ score b) :
    relapseRiskFV a ≤ relapseRiskFV b := by
  unfold relapseRiskFV
  exact logistic_mono (by simpa using sub_le_sub_right (Rat.cast_le.mpr h) (3.5 : ℝ))

lemma sumTerms_eq_none_iff (features l : List (String × ℚ)) :
    sumTerms features l = none ↔ ∃ kw ∈ l, lookupQ kw.1 features = none := by
  induction l with
  | nil => simp [sumTerms]
  | cons kw rest ih =>
    obtain ⟨k, w⟩ := kw
    cases hk : lookupQ k features <;> cases hs : sumTerms features rest <;>
      simp_all [sumTerms]
    exact ih

/-- Replacing the value of feature `k` in a `FeatureVector` (updating the
entry of the dict at one of its ten keys); any other string leaves the vector
unchanged. -/
def FeatureVector.setFeature (fv : FeatureVector) (k : String) (v : ℚ) : FeatureVector :=
  if k = "speech_rate_shift" then { fv with speech_rate_shift := v }
  else if k = "pause_change" then { fv with pause_change := v }
  else if k = "emotion_valence_drop" then { fv with emotion_valence_drop := v }
  else if k = "language_disorganization_rise" then
    { fv with language_disorganization_rise := v }
  else if k = "sleep_deviation" then { fv with sleep_deviation := v }
  else if k = "sleep_irregularity" then { fv with sleep_irregularity := v }
  else if k = "activity_shift" then { fv with activity_shift := v }
  else if k = "circadian_disruption" then { fv with circadian_disruption := v }
  else if k = "medication_nonadherence" then { fv with medication_nonadherence := v }
  else if k = "digital_withdrawal" then { fv with digital_withdrawal := v }
  else fv

/-- A feature dict whose key set differs from the weight table: it carries the
ten weight keys plus the extra key `mood_instability`. -/
def mismatchedFeatures : List (String × ℚ) :=
  ("mood_instability", 0.5) :: (extract_10_features demoPatient).toPairs

/-- Claim C3: for every snapshot, each of the ten values produced by
`extract_10_features` lies in the unit interval `[0, 1]`. -/
theorem extract_10_features_mem_unit (p : PatientSnapshot) :
    (extract_10_features p).inUnit :=
  extract_inUnit p

/-- Claim C8: the relative-change helper returns `0` when the baseline is
exactly `0`, and `|current - baseline| / |baseline|` for every nonzero
baseline. -/
theorem relative_change_zero_and_nonzero (x b : ℚ) (hb : b ≠ 0) :
    relative_change x 0 = 0 ∧ relative_change x b = |x - b| / |b| := by
  constructor
  · simp [relative_change]
  · simp [relative_change, hb]

theorem relative_change_zero_and_nonzero_witness :
    relative_change 7 0 = 0 ∧ relative_change 7 2 = |(7 : ℚ) - 2| / |(2 : ℚ)| :=
  relative_change_zero_and_nonzero 7 2 (by norm_num)

/-- Claim C2: for every `FeatureVector` whose ten values lie in `[0, 1]`, the
relapse probability is returned and lies strictly between `0` and `1`. -/
theorem relapse_probability_mem_open_unit (fv : FeatureVector) (h : fv.inUnit) :
    ∃ p, relapse_probability_6_12_months fv.toPairs = some p ∧ 0 < p ∧ p < 1 :=
  ⟨relapseRiskFV fv, relapse_probability_toPairs fv, logistic_pos _, logistic_lt_one _⟩

theorem relapse_probability_mem_open_unit_witness :
    ∃ p, relapse_probability_6_12_months
        (FeatureVector.mk 0.5 0.5 0.5 0.5 0.5 0.5 0.5 0.5 0.5 0.5).toPairs = some p ∧
      0 < p ∧ p < 1 :=
  relapse_probability_mem_open_unit _ (by norm_num [FeatureVector.inUnit])

/-- Claim C1, counterexample: `mismatchedFeatures` has the extra key
`mood_instability`, absent from the weight table, so its key set differs from
the weight tables key set; yet the relapse-probability computation still
returns a probability instead of failing. -/
theorem relapse_probability_extra_key_counterexample :
    "mood_instability" ∈ mismatchedFeatures.map Prod.fst ∧
    "mood_instability" ∉ featureKeys ∧
    relapse_probability_6_12_months mismatchedFeatures ≠ none := by
  refine ⟨by simp [mismatchedFeatures], by decide, ?_⟩
  have h : sumTerms mismatchedFeatures weights =
      some (score (extract_10_features demoPatient)) := rfl
  simp [relapse_probability_6_12_months, h]

/-- Claim C1, amended: the computation fails (returns no probability) exactly
when the feature dict is missing one of the weight tables keys; a feature
dict with extra keys beyond the weight table still yields a probability, the
extra keys being silently ignored. -/
theorem relapse_probability_none_iff_missing_key (features : List (String × ℚ)) :
    relapse_probability_6_12_months features = none ↔
      ∃ kw ∈ weights, lookupQ kw.1 features = none := by
  rw [← sumTerms_eq_none_iff features weights]
  unfold relapse_probability_6_12_months
  cases sumTerms features weights <;> simp

/-- Claim C5: the estimated false-alarm rate is `0.18` exactly when the
relapse risk is strictly above `0.55`, and `0.10` exactly when the relapse
risk is at most `0.55` (so the boundary value `0.55` itself yields `0.10`,
and no third value ever occurs). -/
theorem false_alarm_rate_step (p : PatientSnapshot) :
    ((estimate_outcomes p).estimated_false_alarm_rate = 0.18 ↔
      0.55 < (estimate_outcomes p).relapse_risk_6_12m) ∧
    ((estimate_outcomes p).estimated_false_alarm_rate = 0.10 ↔
      (estimate_outcomes p).relapse_risk_6_12m ≤ 0.55) := by
  simp only [estimate_outcomes]
  by_cases h : relapseRiskFV (extract_10_features p) > 0.55
  · rw [if_pos h]
    refine ⟨⟨fun _ => h, fun _ => rfl⟩,
      ⟨fun h2 => absurd h2 (by norm_num), fun h2 => absurd h (not_lt.mpr h2)⟩⟩
  · rw [if_neg h]
    refine ⟨⟨fun h2 => absurd h2 (by norm_num), fun h2 => absurd h2 h⟩,
      ⟨fun _ => not_lt.mp h, fun _ => rfl⟩⟩

lemma le_boundedR_add {x d : ℝ} (hx1 : x ≤ 1) (hd : 0 ≤ d) :
    x ≤ boundedR (x + d) := by
  unfold boundedR
  rcases le_or_lt (x + d) 1 with h | h
  · rw [min_eq_right h]
    exact le_max_of_le_right (by linarith)
  · rw [min_eq_left h.le]
    exact le_max_of_le_right hx1

/-- Claim C6: in every comparison set, routine care is never predicted
better: the routine relapse risk is at least the AI relapse risk, and the
routine readmission risk is at least the AI readmission risk. -/
theorem routine_risks_ge_ai (p : PatientSnapshot) :
    (compare_with_routine_followup p).ai_relapse_risk_6_12m ≤
      (compare_with_routine_followup p).routine_relapse_risk_6_12m ∧
    (compare_with_routine_followup p).ai_readmission_risk ≤
      (compare_with_routine_followup p).routine_readmission_risk := by
  simp only [compare_with_routine_followup, estimate_outcomes]
  constructor
  · exact le_boundedR_add (logistic_lt_one _).le (by norm_num)
  · exact le_boundedR_add
      (boundedR_mem_unit (relapseRiskFV (extract_10_features p) * 0.72 + 0.08)).2
      (by norm_num)

/-- Claim C7: the early-intervention window is always at least 3 days, and
the routine-care intervention window (the AI window minus the fixed 14-day
detection lag, floored) is always at least 1 day. -/
theorem intervention_window_floors (p : PatientSnapshot) :
    3 ≤ (estimate_outcomes p).early_intervention_window_days ∧
    1 ≤ (compare_with_routine_followup p).routine_early_intervention_window_days := by
  simp only [compare_with_routine_followup, estimate_outcomes]
  exact ⟨le_max_left _ _, le_max_left _ _⟩

/-- Claim C4: for every unit-interval feature vector and every feature key,
raising that single feature (all others held fixed) never decreases the
returned relapse probability. -/
theorem relapse_probability_monotone_in_feature (fv : FeatureVector) (k : String)
    (v1 v2 : ℚ) (hfv : fv.inUnit) (hk : k ∈ featureKeys) (hv0 : 0 ≤ v1)
    (hv12 : v1 ≤ v2) (hv1 : v2 ≤ 1) :
    ∃ p1 p2,
      relapse_probability_6_12_months (fv.setFeature k v1).toPairs = some p1 ∧
      relapse_probability_6_12_months (fv.setFeature k v2).toPairs = some p2 ∧
      p1 ≤ p2 := by
  refine ⟨_, _, relapse_probability_toPairs _, relapse_probability_toPairs _, ?_⟩
  apply relapseRiskFV_mono
  have hk2 : k ∈ ["speech_rate_shift", "pause_change", "emotion_valence_drop",
      "language_disorganization_rise", "sleep_deviation", "sleep_irregularity",
      "activity_shift", "circadian_disruption", "medication_nonadherence",
      "digital_withdrawal"] := hk
  fin_cases hk2 <;> simp [FeatureVector.setFeature, score] <;> linarith

theorem relapse_probability_monotone_in_feature_witness :
    ∃ p1 p2,
      relapse_probability_6_12_months
        ((FeatureVector.mk 0.5 0.5 0.5 0.5 0.5 0.5 0.5 0.5 0.5 0.5).setFeature
          "medication_nonadherence" 0).toPairs = some p1 ∧
      relapse_probability_6_12_months
        ((FeatureVector.mk 0.5 0.5 0.5 0.5 0.5 0.5 0.5 0.5 0.5 0.5).setFeature
          "medication_nonadherence" 1).toPairs = some p2 ∧
      p1 ≤ p2 :=
  relapse_probability_monotone_in_feature _ _ 0 1
    (by norm_num [FeatureVector.inUnit]) (by decide) le_rfl zero_le_one le_rfl

lemma logistic_gt_55 {x : ℝ} (hx : 1 ≤ x) : 0.55 < logistic x := by
  unfold logistic
  have hmul : Real.exp (-1) * Real.exp 1 = 1 := by
    rw [← Real.exp_add]
    norm_num
  have h2 : Real.exp (-1) < 9 / 11 := by
    nlinarith [Real.exp_pos (-1), Real.exp_one_gt_d9]
  have h1 : Real.exp (-x) ≤ Real.exp (-1) := Real.exp_le_exp.mpr (by linarith)
  rw [lt_div_iff₀ (one_add_exp_pos (-x))]
  linarith

/-- Claim C9: on the demo snapshot (speech 120 to 165 wpm, pause 1.2 to 0.5 s,
valence 0.1 to -0.4, disorganization 0.22 to 0.55, sleep 7.0 to 4.5 h with SD
2.1 h, steps 7000 to 3200, circadian shift 2.8 h, adherence 0.78, missed
follow-up 0.30, messages 35 to 12), the relapse risk is strictly above 0.55,
the false-alarm rate is exactly 0.18, and readmission risk, predicted
adherence, and the intervention window respect their documented bounds. -/
theorem demo_outcomes_within_bounds :
    0.55 < (estimate_outcomes demoPatient).relapse_risk_6_12m ∧
    (estimate_outcomes demoPatient).estimated_false_alarm_rate = 0.18 ∧
    0 ≤ (estimate_outcomes demoPatient).readmission_risk ∧
    (estimate_outcomes demoPatient).readmission_risk ≤ 1 ∧
    0 ≤ (estimate_outcomes demoPatient).predicted_medication_adherence_3m ∧
    (estimate_outcomes demoPatient).predicted_medication_adherence_3m ≤ 1 ∧
    3 ≤ (estimate_outcomes demoPatient).early_intervention_window_days := by
  have hscore : score (extract_10_features demoPatient) = 8361 / 1750 := by
    norm_num [score, extract_10_features, bounded, relative_change, demoPatient,
      max_def, min_def, abs_of_nonneg, abs_of_nonpos]
  have hrisk : (0.55 : ℝ) < relapseRiskFV (extract_10_features demoPatient) := by
    unfold relapseRiskFV
    rw [hscore]
    apply logistic_gt_55
    push_cast
    norm_num
  simp only [estimate_outcomes]
  refine ⟨hrisk, if_pos hrisk, (boundedR_mem_unit _).1, (boundedR_mem_unit _).2,
    (boundedR_mem_unit _).1, (boundedR_mem_unit _).2, le_max_left _ _⟩

/-- Claim C10: for every snapshot the relapse risk stays in the closed
interval from `1 / (1 + exp 3.5)` to `1 / (1 + exp (-6.8))`, so the clamp on
the readmission risk never activates: the readmission risk equals exactly
`relapse_risk * 0.72 + 0.08` and lies strictly between `0.08` and `0.8`. -/
theorem readmission_clamp_never_activates (p : PatientSnapshot) :
    1 / (1 + Real.exp 3.5) ≤ (estimate_outcomes p).relapse_risk_6_12m ∧
    (estimate_outcomes p).relapse_risk_6_12m ≤ 1 / (1 + Real.exp (-6.8)) ∧
    (estimate_outcomes p).readmission_risk =
      (estimate_outcomes p).relapse_risk_6_12m * 0.72 + 0.08 ∧
    0.08 < (estimate_outcomes p).readmission_risk ∧
    (estimate_outcomes p).readmission_risk < 0.8 := by
  obtain ⟨hs0, hs1⟩ := score_bounds (extract_inUnit p)
  have hs0R : (0 : ℝ) ≤ (score (extract_10_features p) : ℝ) := by exact_mod_cast hs0
  have hs1R : (score (extract_10_features p) : ℝ) ≤ 103 / 10 := by
    rw [show ((103 : ℝ) / 10) = (((103 : ℚ) / 10 : ℚ) : ℝ) by norm_num]
    exact Rat.cast_le.mpr hs1
  have hlow : 1 / (1 + Real.exp 3.5) ≤ relapseRiskFV (extract_10_features p) := by
    have h := logistic_mono (a := -3.5)
      (b := (score (extract_10_features p) : ℝ) - 3.5) (by linarith)
    unfold relapseRiskFV
    simpa [logistic] using h
  have hhigh : relapseRiskFV (extract_10_features p) ≤ 1 / (1 + Real.exp (-6.8)) := by
    have h := logistic_mono (a := (score (extract_10_features p) : ℝ) - 3.5)
      (b := 6.8) (by linarith)
    unfold relapseRiskFV
    simpa [logistic] using h
  have h0 := logistic_pos ((score (extract_10_features p) : ℝ) - 3.5)
  have h1 := logistic_lt_one ((score (extract_10_features p) : ℝ) - 3.5)
  have hre : boundedR (relapseRiskFV (extract_10_features p) * 0.72 + 0.08) =
      relapseRiskFV (extract_10_features p) * 0.72 + 0.08 := by
    apply boundedR_eq_self
    · unfold relapseRiskFV
      nlinarith
    · unfold relapseRiskFV
      nlinarith
  simp only [estimate_outcomes]
  refine ⟨hlow, hhigh, hre, ?_, ?_⟩
  · rw [hre]
    unfold relapseRiskFV
    nlinarith
  · rw [hre]
    unfold relapseRiskFV
    nlinarith
